import Mathlib

/-!
# Golang-DLL-Sideloading: `main.go`

The program is one straight-line entry point:

```go
func main() {
	SaferDLLLoading()
	windows.LoadLibrary("dwmapi.dll")
}
```

The embedding threads an explicit process state through the two calls.  The
state carries the process-wide DLL search order, the loaded modules, the output
streams, the arguments and environment, and two logs: the Go-level calls made
and the native calls the operating system received.  What the operating system
decides (whether `SetDllDirectoryW` is honoured, which directories hold which
files) is an input of a run, the `Host`.
-/

namespace DllSideloading

/-! ## Values crossing the native boundary -/

/-- Error values of the two calls: the `EINVAL` that the string conversion
reports, or a code returned by the operating system. -/
inductive Errno where
  | EINVAL
  | os (code : Nat)
  deriving DecidableEq, Repr

/-- A wide-string argument as the native side sees it: `none` is the NULL
pointer, `some buf` points at the `uint16` code units `buf`, terminator
included. -/
abbrev LPCWSTR := Option (List Nat)

/-- The two UTF-16 code units (or the single one) that `utf16.Encode` emits for
one rune. -/
def encodeRune (c : Char) : List Nat :=
  if c.toNat < 0x10000 then [c.toNat]
  else [0xD800 + ((c.toNat - 0x10000) / 0x400) % 0x400,
        0xDC00 + (c.toNat - 0x10000) % 0x400]

/-- Go's `UTF16FromString`: `EINVAL` when the string holds a NUL, otherwise the
UTF-16 encoding of the string followed by the terminating NUL. -/
def UTF16FromString (s : String) : Except Errno (List Nat) :=
  if Char.ofNat 0 ∈ s.toList then .error .EINVAL
  else .ok (s.toList.flatMap encodeRune ++ [0])

/-- Go's `UTF16PtrFromString`: the address of the first unit of
`UTF16FromString`, never the NULL pointer on success. -/
def UTF16PtrFromString (s : String) : Except Errno LPCWSTR :=
  match UTF16FromString s with
  | .error e => .error e
  | .ok buf => .ok (some buf)

/-- Length of the string a buffer holds, as native code measures it: the number
of units before the first NUL. -/
def wcslen (buf : List Nat) : Nat :=
  (buf.takeWhile (fun u => u != 0)).length

/-- The native side reads the argument as the empty string: a non-NULL pointer
whose first unit is the terminator. -/
def isEmptyString : LPCWSTR → Bool
  | none => false
  | some buf => buf.head? == some 0

/-! ## Process state and host -/

/-- The process-wide DLL search order.  `default` searches the current working
directory, `safe` does not. -/
inductive SearchOrder where
  | default
  | safe
  deriving DecidableEq, Repr

/-- Where a mapped library file was found. -/
inductive Origin where
  | system
  | application
  | workingDir
  deriving DecidableEq, Repr

/-- Go-level calls that touch the search order or load a library.  `main` makes
two of them; the other two are the alternatives its comments name. -/
inductive Call where
  | SaferDLLLoading
  | SetDefaultDllDirectories (flags : Nat)
  | SetDllDirectory (path : String)
  | LoadLibrary (libname : String)
  deriving DecidableEq, Repr

/-- Calls as the operating system receives them. -/
inductive NativeCall where
  | SetDllDirectoryW (lpPathName : LPCWSTR)
  | SetDefaultDllDirectories (flags : Nat)
  | LoadLibraryW (lpLibFileName : LPCWSTR)
  deriving DecidableEq, Repr

/-- What the operating system decides in a run: whether it rejects the
`SetDllDirectoryW` call, and the library files each searched directory holds. -/
structure Host where
  setDllDirectoryFails : Bool
  systemDir : List String
  applicationDir : List String
  workingDir : List String
  deriving DecidableEq, Repr

/-- The explicit process state. -/
structure Proc where
  args : List String
  env : List (String × String)
  stdout : List String
  stderr : List String
  searchOrder : SearchOrder
  searchOrderWrites : Nat
  modules : List (String × Origin)
  calls : List Call
  native : List NativeCall
  deriving DecidableEq, Repr

/-- The two results of `windows.LoadLibrary`: the handle (`none` is the zero
handle, `some o` the mapped copy) and the error. -/
structure LoadResult where
  handle : Option Origin
  err : Option Errno
  deriving DecidableEq, Repr

/-- A process as it starts: nothing set, nothing loaded, nothing logged. -/
def Proc.fresh (args : List String) (env : List (String × String)) : Proc :=
  { args := args, env := env, stdout := [], stderr := [],
    searchOrder := .default, searchOrderWrites := 0, modules := [],
    calls := [], native := [] }

/-! ## The operating system side -/

/-- Modelled from the spec: the loader's resolution of a bare filename, which is
operating-system behaviour outside the repository.  The safe order is "system
directory, then application directory — excluding the current working
directory"; in the default order a same-named file in the working directory is
the one loaded (the spec's negative scenario). -/
def resolve (h : Host) (order : SearchOrder) (libname : String) : Option Origin :=
  match order with
  | .default =>
    if libname ∈ h.workingDir then some .workingDir
    else if libname ∈ h.systemDir then some .system
    else if libname ∈ h.applicationDir then some .application
    else none
  | .safe =>
    if libname ∈ h.systemDir then some .system
    else if libname ∈ h.applicationDir then some .application
    else none

/-- Modelled from the spec: the native "set DLL directory" call, which is
operating-system behaviour outside the repository.  The call is received with
its argument; when the host rejects it the process is left in the search order
it had ("a failed call leaves the process in the default (vulnerable) search
order"); otherwise the setting is written: the empty string selects the safe
order, anything else does not. -/
def nativeSetDllDirectoryW (h : Host) (lpPathName : LPCWSTR) (p : Proc) : Proc × Bool :=
  let p1 := { p with native := p.native ++ [NativeCall.SetDllDirectoryW lpPathName] }
  if h.setDllDirectoryFails then (p1, false)
  else
    ({ p1 with
        searchOrder := if isEmptyString lpPathName then .safe else .default,
        searchOrderWrites := p1.searchOrderWrites + 1 }, true)

/-- Modelled from the spec: the native "load library by name" call, which is
operating-system behaviour outside the repository.  The call is received with
its argument `lpLibFileName`, the buffer that spells `libname`; the name is
resolved through the current search order, and a found file is mapped into the
process; the search order is left alone.  A name that is not found gives the
zero handle and the "module not found" code. -/
def nativeLoadLibraryW (h : Host) (libname : String) (lpLibFileName : LPCWSTR) (p : Proc) :
    Proc × LoadResult :=
  let p1 := { p with native := p.native ++ [NativeCall.LoadLibraryW lpLibFileName] }
  match resolve h p1.searchOrder libname with
  | none => (p1, { handle := none, err := some (.os 126) })
  | some o => ({ p1 with modules := p1.modules ++ [(libname, o)] }, { handle := some o, err := none })

/-! ## The program -/

/-- Modelled from the spec: `SaferDLLLoading`, the helper of this repository
that `main` calls and whose body is not among the sources.  Per the spec it is
mechanism (1): it calls the "set DLL directory" API with an empty-string
argument, and nothing is done with the call's result. -/
def SaferDLLLoading (h : Host) (p : Proc) : Proc :=
  let p1 := { p with calls := p.calls ++ [Call.SaferDLLLoading] }
  match UTF16PtrFromString "" with
  | .error _ => p1
  | .ok ptr => (nativeSetDllDirectoryW h ptr p1).1

namespace windows

/-- Modelled from the spec: `windows.LoadLibrary` of `golang.org/x/sys/windows`,
a dependency outside the repository: it converts the name to a wide string,
returning the conversion error without a native call when that fails, and
otherwise makes the native load call and hands back its handle and error. -/
def LoadLibrary (h : Host) (libname : String) (p : Proc) : Proc × LoadResult :=
  let p1 := { p with calls := p.calls ++ [Call.LoadLibrary libname] }
  match UTF16PtrFromString libname with
  | .error e => (p1, { handle := none, err := some e })
  | .ok ptr => nativeLoadLibraryW h libname ptr p1

end windows

/-- The `main` of `main.go`: the call to `SaferDLLLoading`, then the call to
`windows.LoadLibrary("dwmapi.dll")` with both results dropped, then the normal
return, after which the process exits with status 0.  The result pairs the
final process state with the exit status. -/
def main (h : Host) (p : Proc) : Proc × Nat :=
  let p1 := SaferDLLLoading h p
  let (p2, _) := windows.LoadLibrary h "dwmapi.dll" p1
  (p2, 0)

/-! ## Observations the statements use -/

/-- The Go-level calls a run of `main` adds to the log. -/
def mainCalls (h : Host) (p : Proc) : List Call :=
  (main h p).1.calls.drop p.calls.length

/-- The native calls a run of `main` adds to the log. -/
def mainNative (h : Host) (p : Proc) : List NativeCall :=
  (main h p).1.native.drop p.native.length

/-- The modules a run of `main` maps into the process. -/
def mainModules (h : Host) (p : Proc) : List (String × Origin) :=
  (main h p).1.modules.drop p.modules.length

/-- The value of the second call that `main` drops. -/
def droppedLoadResult (h : Host) (p : Proc) : LoadResult :=
  (windows.LoadLibrary h "dwmapi.dll" (SaferDLLLoading h p)).2

/-- Every `LoadLibrary` entry of a call sequence has a `SaferDLLLoading` entry
before it; the flag says whether one has been seen already. -/
def loadsFollowSafer : Bool → List Call → Bool
  | _, [] => true
  | seen, Call.LoadLibrary _ :: cs => seen && loadsFollowSafer seen cs
  | _, Call.SaferDLLLoading :: cs => loadsFollowSafer true cs
  | seen, _ :: cs => loadsFollowSafer seen cs

/-- The library names of the `LoadLibrary` entries of a call sequence. -/
def loadedNames : List Call → List String
  | [] => []
  | Call.LoadLibrary n :: cs => n :: loadedNames cs
  | _ :: cs => loadedNames cs

/-- A call that sets the search order. -/
def isSearchOrderCall : Call → Bool
  | Call.SaferDLLLoading => true
  | Call.SetDefaultDllDirectories _ => true
  | Call.SetDllDirectory _ => true
  | Call.LoadLibrary _ => false

/-- A native call that sets the search order. -/
def isSearchOrderNative : NativeCall → Bool
  | NativeCall.SetDllDirectoryW _ => true
  | NativeCall.SetDefaultDllDirectories _ => true
  | NativeCall.LoadLibraryW _ => false

/-- The name holds a backslash or a slash. -/
def hasPathSeparator (s : String) : Bool :=
  s.toList.any (fun c => c == Char.ofNat 92 || c == Char.ofNat 47)

/-- The name holds a colon, as a drive designator does. -/
def hasDriveColon (s : String) : Bool :=
  s.toList.any (fun c => c == Char.ofNat 58)

/-- A host that rejects the `SetDllDirectoryW` call, with a system copy of the
library and a same-named decoy in the working directory. -/
def rejectingHostWithDecoy : Host :=
  { setDllDirectoryFails := true, systemDir := ["dwmapi.dll"],
    applicationDir := [], workingDir := ["dwmapi.dll"] }

/-- The same host without the decoy. -/
def rejectingHostNoDecoy : Host :=
  { rejectingHostWithDecoy with workingDir := [] }

/-- A host that honours the call, with a system copy and a decoy. -/
def honouringHostWithDecoy : Host :=
  { rejectingHostWithDecoy with setDllDirectoryFails := false }

/-! ## Closed forms of the two steps -/

theorem UTF16PtrFromString_empty : UTF16PtrFromString "" = .ok (some [0]) := rfl

theorem UTF16PtrFromString_dwmapi :
    UTF16PtrFromString "dwmapi.dll" =
      .ok (some [100, 119, 109, 97, 112, 105, 46, 100, 108, 108, 0]) := rfl

theorem SaferDLLLoading_eq (h : Host) (p : Proc) :
    SaferDLLLoading h p =
      { p with
        calls := p.calls ++ [Call.SaferDLLLoading],
        native := p.native ++ [NativeCall.SetDllDirectoryW (some [0])],
        searchOrder := if h.setDllDirectoryFails then p.searchOrder else .safe,
        searchOrderWrites :=
          if h.setDllDirectoryFails then p.searchOrderWrites else p.searchOrderWrites + 1 } := by
  unfold SaferDLLLoading
  rw [UTF16PtrFromString_empty]
  cases hf : h.setDllDirectoryFails <;> simp [nativeSetDllDirectoryW, hf, isEmptyString]

theorem LoadLibrary_dwmapi_eq (h : Host) (q : Proc) :
    (windows.LoadLibrary h "dwmapi.dll" q).1 =
      { q with
        calls := q.calls ++ [Call.LoadLibrary "dwmapi.dll"],
        native := q.native ++
          [NativeCall.LoadLibraryW (some [100, 119, 109, 97, 112, 105, 46, 100, 108, 108, 0])],
        modules := q.modules ++
          (match resolve h q.searchOrder "dwmapi.dll" with
            | none => []
            | some o => [("dwmapi.dll", o)]) } := by
  unfold windows.LoadLibrary
  rw [UTF16PtrFromString_dwmapi]
  simp only [nativeLoadLibraryW]
  cases hr : resolve h q.searchOrder "dwmapi.dll" <;> simp

theorem main_fst (h : Host) (p : Proc) :
    (main h p).1 = (windows.LoadLibrary h "dwmapi.dll" (SaferDLLLoading h p)).1 := rfl

theorem main_calls (h : Host) (p : Proc) :
    (main h p).1.calls =
      p.calls ++ [Call.SaferDLLLoading, Call.LoadLibrary "dwmapi.dll"] := by
  rw [main_fst, LoadLibrary_dwmapi_eq, SaferDLLLoading_eq]
  simp

theorem mainCalls_eq (h : Host) (p : Proc) :
    mainCalls h p = [Call.SaferDLLLoading, Call.LoadLibrary "dwmapi.dll"] := by
  unfold mainCalls
  rw [main_calls]
  simp

theorem main_native (h : Host) (p : Proc) :
    (main h p).1.native =
      p.native ++ [NativeCall.SetDllDirectoryW (some [0]),
        NativeCall.LoadLibraryW (some [100, 119, 109, 97, 112, 105, 46, 100, 108, 108, 0])] := by
  rw [main_fst, LoadLibrary_dwmapi_eq, SaferDLLLoading_eq]
  simp

theorem main_modules (h : Host) (p : Proc) :
    (main h p).1.modules =
      p.modules ++
        (match resolve h (if h.setDllDirectoryFails then p.searchOrder else .safe)
            "dwmapi.dll" with
          | none => []
          | some o => [("dwmapi.dll", o)]) := by
  rw [main_fst, LoadLibrary_dwmapi_eq, SaferDLLLoading_eq]

theorem mainNative_eq (h : Host) (p : Proc) :
    mainNative h p =
      [NativeCall.SetDllDirectoryW (some [0]),
        NativeCall.LoadLibraryW (some [100, 119, 109, 97, 112, 105, 46, 100, 108, 108, 0])] := by
  unfold mainNative
  rw [main_native]
  simp

theorem resolve_safe_ne_workingDir (h : Host) (n : String) :
    resolve h .safe n ≠ some Origin.workingDir := by
  unfold resolve
  simp only
  split_ifs <;> simp

/-! ## The claims -/

/-- C1: in every run of `main` the calls it makes are exactly
`SaferDLLLoading` and then `LoadLibrary("dwmapi.dll")`, appended to whatever was
logged before; every `LoadLibrary` entry of that sequence has the
`SaferDLLLoading` entry before it; and `main` returns normally, with exit
status 0. -/
theorem main_call_sequence (h : Host) (p : Proc) :
    (main h p).1.calls = p.calls ++ mainCalls h p ∧
    mainCalls h p = [Call.SaferDLLLoading, Call.LoadLibrary "dwmapi.dll"] ∧
    loadsFollowSafer false (mainCalls h p) = true ∧
    (main h p).2 = 0 := by
  refine ⟨?_, mainCalls_eq h p, ?_, rfl⟩
  · rw [mainCalls_eq, main_calls]
  · rw [mainCalls_eq]
    rfl

/-- C2, as stated, fails: on a host that rejects the safe-search-order call,
two runs that differ only in whether the working directory holds a decoy
`dwmapi.dll` load different copies, and the run with the decoy loads the
decoy. -/
theorem main_loads_decoy_when_call_rejected :
    rejectingHostNoDecoy = { rejectingHostWithDecoy with workingDir := [] } ∧
    mainModules rejectingHostNoDecoy (Proc.fresh [] []) =
      [("dwmapi.dll", Origin.system)] ∧
    mainModules rejectingHostWithDecoy (Proc.fresh [] []) =
      [("dwmapi.dll", Origin.workingDir)] := by
  decide

/-- C2, amended: when the safe-search-order call succeeds, the copy that the
load of `dwmapi.dll` maps does not depend on the contents of the working
directory: replacing them by any others gives the same mapped modules, no
module `main` maps comes from the working directory, and when the system
directory holds `dwmapi.dll` the system copy is the one mapped. -/
theorem main_load_ignores_workingDir (h : Host) (p : Proc) (wd : List String)
    (hok : h.setDllDirectoryFails = false) :
    (main { h with workingDir := wd } p).1.modules = (main h p).1.modules ∧
    (∀ m ∈ mainModules h p, m.2 ≠ Origin.workingDir) ∧
    ("dwmapi.dll" ∈ h.systemDir →
      mainModules h p = [("dwmapi.dll", Origin.system)]) := by
  have hm : mainModules h p =
      (match resolve h .safe "dwmapi.dll" with
        | none => []
        | some o => [("dwmapi.dll", o)]) := by
    unfold mainModules
    rw [main_modules]
    simp [hok]
  refine ⟨?_, ?_, ?_⟩
  · rw [main_modules, main_modules]
    simp only [hok, Bool.false_eq_true, if_false]
    rfl
  · intro m hmem
    rw [hm] at hmem
    have hne := resolve_safe_ne_workingDir h "dwmapi.dll"
    cases hr : resolve h .safe "dwmapi.dll" with
    | none => simp [hr] at hmem
    | some o =>
      simp only [hr, List.mem_singleton] at hmem
      subst hmem
      intro ho
      exact hne (by rw [hr]; exact congrArg some ho)
  · intro hsys
    rw [hm]
    simp [resolve, hsys]

/-- C2, amended, at a host that honours the call and has both a system copy and
a decoy. -/
theorem main_load_ignores_workingDir_witness :
    honouringHostWithDecoy.setDllDirectoryFails = false ∧
    (main { honouringHostWithDecoy with workingDir := [] } (Proc.fresh [] [])).1.modules =
      (main honouringHostWithDecoy (Proc.fresh [] [])).1.modules ∧
    (∀ m ∈ mainModules honouringHostWithDecoy (Proc.fresh [] []), m.2 ≠ Origin.workingDir) ∧
    ("dwmapi.dll" ∈ honouringHostWithDecoy.systemDir →
      mainModules honouringHostWithDecoy (Proc.fresh [] []) = [("dwmapi.dll", Origin.system)]) :=
  ⟨rfl, main_load_ignores_workingDir honouringHostWithDecoy (Proc.fresh [] []) [] rfl⟩

/-- C3: whatever the host and the process state, the native "set DLL
directory" call that `SaferDLLLoading` makes, which is also the first native
call of `main`, receives a non-NULL pointer to the one-unit buffer holding
just the terminating NUL: a string of length zero, read by the native side as
the empty string. -/
theorem SaferDLLLoading_passes_empty_string (h : Host) (p : Proc) :
    (SaferDLLLoading h p).native = p.native ++ [NativeCall.SetDllDirectoryW (some [0])] ∧
    (mainNative h p).head? = some (NativeCall.SetDllDirectoryW (some [0])) ∧
    (some [0] : LPCWSTR) ≠ none ∧
    wcslen [0] = 0 ∧
    isEmptyString (some [0]) = true := by
  refine ⟨?_, ?_, by simp, rfl, rfl⟩
  · rw [SaferDLLLoading_eq]
  · unfold mainNative
    rw [main_native]
    simp

/-- C4, as stated, fails: on a host that rejects the safe-search-order call
the search order is left unwritten and in its default, and `main` still calls
`LoadLibrary("dwmapi.dll")`. -/
theorem main_loads_after_rejected_call :
    rejectingHostWithDecoy.setDllDirectoryFails = true ∧
    (nativeSetDllDirectoryW rejectingHostWithDecoy (some [0]) (Proc.fresh [] [])).2 = false ∧
    (SaferDLLLoading rejectingHostWithDecoy (Proc.fresh [] [])).searchOrder = SearchOrder.default ∧
    Call.LoadLibrary "dwmapi.dll" ∈ mainCalls rejectingHostWithDecoy (Proc.fresh [] []) := by
  decide

/-- C4, amended: `main` calls the library load after the safe-search-order
call has returned, whether that call succeeded or failed: for either outcome
the calls of `main` are `SaferDLLLoading` and then `LoadLibrary("dwmapi.dll")`,
the load coming right after the state the first call left. -/
theorem main_loads_after_either_outcome (h : Host) (p : Proc) (failed : Bool) :
    mainCalls { h with setDllDirectoryFails := failed } p =
      [Call.SaferDLLLoading, Call.LoadLibrary "dwmapi.dll"] ∧
    (main { h with setDllDirectoryFails := failed } p).1.calls =
      (SaferDLLLoading { h with setDllDirectoryFails := failed } p).calls ++
        [Call.LoadLibrary "dwmapi.dll"] := by
  refine ⟨mainCalls_eq _ p, ?_⟩
  rw [main_calls, SaferDLLLoading_eq]
  simp

/-- C5: `main` ignores the results of both calls.  Every combination of success
and failure of the two calls occurs on some host, and on every host `main`
makes the same two calls in the same order, writes nothing to the output
streams, and returns with exit status 0. -/
theorem main_ignores_results :
    (∀ (saferFails loadFails : Bool) (p : Proc), ∃ h : Host,
      h.setDllDirectoryFails = saferFails ∧
      (droppedLoadResult h p).err.isSome = loadFails) ∧
    (∀ (h h2 : Host) (p : Proc),
      mainCalls h p = mainCalls h2 p ∧
      mainCalls h p = [Call.SaferDLLLoading, Call.LoadLibrary "dwmapi.dll"] ∧
      (main h p).1.stdout = p.stdout ∧
      (main h p).1.stderr = p.stderr ∧
      (main h p).2 = 0) := by
  constructor
  · intro saferFails loadFails p
    cases loadFails
    · refine ⟨{ setDllDirectoryFails := saferFails, systemDir := ["dwmapi.dll"],
                applicationDir := [], workingDir := ["dwmapi.dll"] }, rfl, ?_⟩
      unfold droppedLoadResult windows.LoadLibrary
      rw [UTF16PtrFromString_dwmapi]
      simp only [nativeLoadLibraryW]
      cases ho : p.searchOrder <;> cases saferFails <;>
        simp [SaferDLLLoading_eq, resolve, ho]
    · refine ⟨{ setDllDirectoryFails := saferFails, systemDir := [],
                applicationDir := [], workingDir := [] }, rfl, ?_⟩
      unfold droppedLoadResult windows.LoadLibrary
      rw [UTF16PtrFromString_dwmapi]
      simp only [nativeLoadLibraryW]
      cases ho : p.searchOrder <;> cases saferFails <;>
        simp [SaferDLLLoading_eq, resolve, ho]
  · intro h h2 p
    refine ⟨by rw [mainCalls_eq, mainCalls_eq], mainCalls_eq h p, ?_, ?_, rfl⟩
    · rw [main_fst, LoadLibrary_dwmapi_eq, SaferDLLLoading_eq]
    · rw [main_fst, LoadLibrary_dwmapi_eq, SaferDLLLoading_eq]

/-- C6, as stated, fails: on a host that rejects the safe-search-order call a
run of `main` from a fresh process ends with the search-order setting never
written and still in its default. -/
theorem main_writes_nothing_when_call_rejected :
    (main rejectingHostWithDecoy (Proc.fresh [] [])).1.searchOrderWrites = 0 ∧
    (main rejectingHostWithDecoy (Proc.fresh [] [])).1.searchOrder = SearchOrder.default := by
  decide

/-- C6, amended: in every run of `main` the search-order setting is written at
most once: once, to the safe order, when the safe-search-order call succeeds,
and not at all when it fails.  The only native call of `main` that sets the
search order is the one `SaferDLLLoading` makes, and the load step changes
neither the setting nor its write count. -/
theorem main_writes_search_order_at_most_once (h : Host) (p : Proc) :
    (main h p).1.searchOrderWrites =
      p.searchOrderWrites + (if h.setDllDirectoryFails then 0 else 1) ∧
    (main h p).1.searchOrder = (if h.setDllDirectoryFails then p.searchOrder else .safe) ∧
    (mainNative h p).filter isSearchOrderNative = [NativeCall.SetDllDirectoryW (some [0])] ∧
    (main h p).1.searchOrderWrites = (SaferDLLLoading h p).searchOrderWrites ∧
    (main h p).1.searchOrder = (SaferDLLLoading h p).searchOrder := by
  refine ⟨?_, ?_, ?_, ?_, ?_⟩
  · rw [main_fst, LoadLibrary_dwmapi_eq, SaferDLLLoading_eq]
    cases h.setDllDirectoryFails <;> simp
  · rw [main_fst, LoadLibrary_dwmapi_eq, SaferDLLLoading_eq]
  · rw [mainNative_eq]
    rfl
  · rw [main_fst, LoadLibrary_dwmapi_eq]
  · rw [main_fst, LoadLibrary_dwmapi_eq]

/-- C7: `main` loads exactly one library and names it by the constant
`"dwmapi.dll"`: in any two runs, whatever the hosts, arguments, environments
and the outcome of the first call, the names passed to `LoadLibrary` are the
one name `"dwmapi.dll"`, which holds no backslash, no slash and no drive colon;
at most one module is mapped. -/
theorem main_loads_one_bare_name (h h2 : Host) (p p2 : Proc) :
    loadedNames (mainCalls h p) = ["dwmapi.dll"] ∧
    loadedNames (mainCalls h2 p2) = loadedNames (mainCalls h p) ∧
    hasPathSeparator "dwmapi.dll" = false ∧
    hasDriveColon "dwmapi.dll" = false ∧
    (mainModules h p).length ≤ 1 := by
  refine ⟨?_, ?_, by decide, by decide, ?_⟩
  · rw [mainCalls_eq]
    rfl
  · rw [mainCalls_eq, mainCalls_eq]
  · unfold mainModules
    rw [main_modules]
    cases resolve h (if h.setDllDirectoryFails then p.searchOrder else .safe) "dwmapi.dll" <;>
      simp

/-- C8: `main` leaves the output streams, the arguments and the environment as
they were, and the argument list has no influence on it: running with any
other argument list gives the same exit status and the same final state, up to
the argument list carried along. -/
theorem main_frame (h : Host) (p : Proc) (args2 : List String) :
    (main h p).1.stdout = p.stdout ∧
    (main h p).1.stderr = p.stderr ∧
    (main h p).1.args = p.args ∧
    (main h p).1.env = p.env ∧
    main h { p with args := args2 } = ({ (main h p).1 with args := args2 }, (main h p).2) := by
  refine ⟨?_, ?_, ?_, ?_, ?_⟩
  · rw [main_fst, LoadLibrary_dwmapi_eq, SaferDLLLoading_eq]
  · rw [main_fst, LoadLibrary_dwmapi_eq, SaferDLLLoading_eq]
  · rw [main_fst, LoadLibrary_dwmapi_eq, SaferDLLLoading_eq]
  · rw [main_fst, LoadLibrary_dwmapi_eq, SaferDLLLoading_eq]
  · apply Prod.ext
    · rw [main_fst, LoadLibrary_dwmapi_eq, SaferDLLLoading_eq]
      simp only
      rw [main_fst, LoadLibrary_dwmapi_eq, SaferDLLLoading_eq]
    · rfl

/-- C9: `main` uses mechanism (1) only: among its calls there is no
`windows.SetDefaultDllDirectories` and no `windows.SetDllDirectory`, whatever
the argument; the only call that sets the search order is `SaferDLLLoading`;
and the operating system receives no native "set default DLL directories"
call. -/
theorem main_uses_only_SaferDLLLoading (h : Host) (p : Proc) :
    (∀ flags : Nat, Call.SetDefaultDllDirectories flags ∉ mainCalls h p) ∧
    (∀ path : String, Call.SetDllDirectory path ∉ mainCalls h p) ∧
    (mainCalls h p).filter isSearchOrderCall = [Call.SaferDLLLoading] ∧
    (∀ flags : Nat, NativeCall.SetDefaultDllDirectories flags ∉ mainNative h p) := by
  rw [mainCalls_eq, mainNative_eq]
  refine ⟨?_, ?_, rfl, ?_⟩
  · intro flags
    simp
  · intro path
    simp
  · intro flags
    simp

end DllSideloading
